import Mathlib

/-!
Verification of the customer state synchronization layer of
convex-autumn-svelte: a shallow embedding of the response unwrapping
function, the local access check, the SvelteKit operation wrappers, the
server-side customer fetch helper, and the reactive operation helper,
with theorems settling the specified properties.

Asynchronous wrappers are embedded as pure functions from the outcome of
the single remote call (the external Remote Action Invoker) to the pair
of the settled result (value or thrown typed error) and the ordered list
of side effects performed before settling (cache invalidations, cache
writes, browser interactions). The browser predicate isBrowser, a
module-level constant in the source, is passed as an explicit parameter.
-/

namespace ConvexAutumnSvelte

/-! ## Data model (src/lib/svelte/types.ts) -/

/-- Interval of a billable feature, one of "month" | "year" | "one_time". -/
inductive Interval where
  | month
  | year
  | one_time
deriving Repr, DecidableEq

/-- Usage type of a feature, "continuous_use" | "single_use". -/
inductive FeatureType where
  | continuous_use
  | single_use
deriving Repr, DecidableEq

/-- Feature: a billable feature in Autumn. Numeric fields are modelled as
integers (the observed values are integral). -/
structure Feature where
  id : String
  name : String
  type : FeatureType
  balance : Option Int := none
  included_usage : Option Int := none
  interval : Option Interval := none
deriving Repr, DecidableEq

/-- ProductItem: component of a product defining feature pricing and limits. -/
structure ProductItem where
  feature_id : Option String := none
  included_usage : Option Int := none
  price : Option Int := none
  interval : Option Interval := none
deriving Repr, DecidableEq

/-- Product: a pricing plan. -/
structure Product where
  id : String
  name : String
  description : Option String := none
  items : List ProductItem := []
deriving Repr, DecidableEq

/-- Entity: a sub-account scope for entity-based billing. -/
structure Entity where
  id : String
  name : String
  feature_id : Option String := none
  balance : Option Int := none
  included_usage : Option Int := none
  created_at : Option Int := none
deriving Repr, DecidableEq

/-- Customer: billing state of the authenticated party. The optional
`features` record (a JavaScript object keyed by feature id) is modelled as
an optional association list; lookup is by key. -/
structure Customer where
  id : String
  name : Option String := none
  email : Option String := none
  products : Option (List Product) := none
  features : Option (List (String × Feature)) := none
  entities : Option (List Entity) := none
  stripe_customer_id : Option String := none
  created_at : Option Int := none
  updated_at : Option Int := none
deriving Repr, DecidableEq

/-! ## Response envelope and unwrapping (src/lib/svelte/types.ts lines 354-398) -/

/-- The error arm of an AutumnActionResponse: {message, code}. -/
structure ErrInfo where
  message : String
  code : String
deriving Repr, DecidableEq

/-- AutumnActionResponse: the wire-level envelope of a remote action,
{data, error, statusCode?}. The TypeScript union makes data and error
mutually exclusive; the unwrapping function branches on the actual field
values, so the model carries both as options. -/
structure AutumnActionResponse (T : Type) where
  data : Option T
  error : Option ErrInfo
  statusCode : Option Nat := none
deriving Repr, DecidableEq

/-- AutumnError: the typed billing error thrown on failure, carrying the
provider error code, the message, and the optional HTTP status code. -/
structure AutumnError where
  message : String
  code : String
  statusCode : Option Nat := none
deriving Repr, DecidableEq

/-- unwrapAutumnResponse: if the envelope carries an error, throw an
AutumnError built from it and the envelope statusCode; if it carries no
data, throw an AutumnError with code "NO_DATA"; otherwise return the data.
Thrown errors are embedded as the `Except.error` arm. -/
def unwrapAutumnResponse {T : Type} (response : AutumnActionResponse T) :
    Except AutumnError T :=
  match response.error with
  | some e => .error ⟨e.message, e.code, response.statusCode⟩
  | none =>
    match response.data with
    | none => .error ⟨"No data in response", "NO_DATA", response.statusCode⟩
    | some d => .ok d

/-! ## Operation parameters and results (src/lib/svelte/types.ts) -/

/-- CheckParams: parameters for checking feature access. -/
structure CheckParams where
  featureId : String
  productId : Option String := none
  requiredBalance : Option Int := none
  entityId : Option String := none
deriving Repr, DecidableEq

/-- CheckResult: server-side check result. -/
structure CheckResult where
  allowed : Bool
  balance : Option Int := none
  reason : Option String := none
deriving Repr, DecidableEq

/-- CheckoutParams: parameters for initiating checkout. The optional dialog
callback is kept as a function value; only its presence and the URL it is
invoked with are observable in the effect trace. -/
structure CheckoutParams where
  productId : String
  dialog : Option (String → Unit) := none
  successUrl : Option String := none

/-- The payload of a checkout response: an optional checkout URL. -/
structure CheckoutData where
  url : Option String := none
deriving Repr, DecidableEq

/-- TrackParams: parameters for tracking usage. -/
structure TrackParams where
  featureId : String
  value : Int
  entityId : Option String := none
deriving Repr, DecidableEq

/-- TrackResult: result of tracking usage. -/
structure TrackResult where
  success : Bool
  balance : Option Int := none
  error : Option String := none
deriving Repr, DecidableEq

/-- AttachParams: parameters for attaching a product. -/
structure AttachParams where
  productId : String
deriving Repr, DecidableEq

/-- CancelParams: parameters for canceling a subscription. -/
structure CancelParams where
  productId : String
deriving Repr, DecidableEq

/-- BillingPortalParams: optional parameters for the billing portal. -/
structure BillingPortalParams where
  returnUrl : Option String := none
deriving Repr, DecidableEq

/-- BillingPortalResult: contains the billing portal URL. -/
structure BillingPortalResult where
  url : Option String := none
deriving Repr, DecidableEq

/-- CreateEntityParams: parameters for creating an entity. -/
structure CreateEntityParams where
  id : String
  name : String
  featureId : Option String := none
deriving Repr, DecidableEq

/-- GetEntityParams: parameters for fetching an entity by id. -/
structure GetEntityParams where
  entityId : String
deriving Repr, DecidableEq

/-- SetupPaymentParams: optional parameters for payment setup. -/
structure SetupPaymentParams where
  successUrl : Option String := none
deriving Repr, DecidableEq

/-- SetupPaymentResult: contains the setup payment URL. -/
structure SetupPaymentResult where
  url : Option String := none
deriving Repr, DecidableEq

/-- CreateReferralCodeParams. -/
structure CreateReferralCodeParams where
  programId : String
deriving Repr, DecidableEq

/-- CreateReferralCodeResult: the created referral code. -/
structure CreateReferralCodeResult where
  code : String
deriving Repr, DecidableEq

/-- RedeemReferralCodeParams. -/
structure RedeemReferralCodeParams where
  code : String
deriving Repr, DecidableEq

/-- RedeemReferralCodeResult. -/
structure RedeemReferralCodeResult where
  success : Bool
deriving Repr, DecidableEq

/-- SetUsageParams: parameters for setting usage to an absolute value. -/
structure SetUsageParams where
  featureId : String
  value : Int
deriving Repr, DecidableEq

/-- SetUsageResult. -/
structure SetUsageResult where
  success : Bool
deriving Repr, DecidableEq

/-- QueryParams: parameters for querying customer data. -/
structure QueryParams where
  featureId : List String
  range : Option String := none
deriving Repr, DecidableEq

/-- QueryResult: a record of opaque values, modelled as an association
list from keys to opaque string renderings (the wrappers never inspect it). -/
structure QueryResult where
  data : List (String × String)
deriving Repr, DecidableEq

/-- LocalCheckResult: result of the synchronous local feature-access check. -/
structure LocalCheckResult where
  allowed : Bool
  reason : Option String := none
deriving Repr, DecidableEq

/-- RefetchOptions: per-call refresh policy. An absent field means the
caller passed no value and the destructuring default (true) applies. -/
structure RefetchOptions where
  refetch : Option Bool := none
deriving Repr, DecidableEq

/-! ## Local access check (src/lib/sveltekit/index.ts, `allowed`) -/

/-- Lookup in the optional features record: `customer.features?.[featureId]`.
A missing record behaves like an empty one (optional chaining yields
undefined, so the feature is not found). -/
def featureLookup (customer : Customer) (featureId : String) : Option Feature :=
  (customer.features.getD []).lookup featureId

/-- allowed: the synchronous client-side feature access check over the
cached customer snapshot (`_state.customer`, here the `cache` argument).
Denies with reason "No customer data" when no snapshot is cached, with
"Feature not found" when the feature id is absent, with an
"Insufficient balance" message when the feature balance is defined and
below the required balance (default 1); otherwise allows. -/
def allowed (cache : Option Customer) (params : CheckParams) : LocalCheckResult :=
  match cache with
  | none => ⟨false, some "No customer data"⟩
  | some customer =>
    let requiredBalance : Int := params.requiredBalance.getD 1
    match featureLookup customer params.featureId with
    | none => ⟨false, some "Feature not found"⟩
    | some feature =>
      match feature.balance with
      | some b =>
        if b < requiredBalance then
          ⟨false, some ("Insufficient balance: " ++ toString b ++ " < " ++
            toString requiredBalance)⟩
        else
          ⟨true, none⟩
      | none => ⟨true, none⟩

/-! ## Effect model for the SvelteKit client (src/lib/sveltekit/index.ts)

Each wrapper is an async function whose observable behaviour is: the side
effects it performs, in order, before its promise settles, and the settled
value (resolved payload or thrown error). The remote call
`await client.action(...)` is the single suspension point; its outcome is
an input to the embedded wrapper. -/

/-- One observable side effect of a wrapper. `invalidate` is SvelteKit
dependency invalidation with its key; `writeCache` is a direct write to the
cached customer slot `_state.customer` (no wrapper performs one, but the
constructor makes the absence expressible); the last three are browser
interactions: invoking a supplied dialog callback with a URL, navigating
via `window.location.href`, opening a URL in a new tab via `window.open`. -/
inductive Effect where
  | invalidate (key : String)
  | writeCache (value : Option Customer)
  | dialog (url : String)
  | navigate (url : String)
  | openWindow (url : String)
deriving Repr, DecidableEq

/-- Outcome of the remote action call: the invoker threw (transport
failure), or returned an envelope. -/
inductive RemoteOutcome (T : Type) where
  | threw (message : String)
  | returned (response : AutumnActionResponse T)
deriving Repr, DecidableEq

/-- What a wrapper can throw: the transport failure rethrown from the
invoker, or the AutumnError raised by unwrapping. -/
inductive WrapperError where
  | transport (message : String)
  | autumn (e : AutumnError)
deriving Repr, DecidableEq

/-- Settled behaviour of a wrapper call: the settled value and the ordered
effect trace emitted before settling. -/
def WrapperRun (T : Type) := Except WrapperError T × List Effect

/-- The invalidation keys occurring in an effect trace, in order. -/
def invalidations (effects : List Effect) : List String :=
  effects.filterMap fun e =>
    match e with
    | .invalidate key => some key
    | _ => none

/-- The direct cache writes occurring in an effect trace. -/
def cacheWrites (effects : List Effect) : List (Option Customer) :=
  effects.filterMap fun e =>
    match e with
    | .writeCache v => some v
    | _ => none

/-- The URLs passed to a supplied dialog callback in a trace. -/
def dialogUrls (effects : List Effect) : List String :=
  effects.filterMap fun e =>
    match e with
    | .dialog url => some url
    | _ => none

/-- The URLs navigated to via `window.location.href` in a trace. -/
def navigateUrls (effects : List Effect) : List String :=
  effects.filterMap fun e =>
    match e with
    | .navigate url => some url
    | _ => none

/-- The URLs opened in a new browsing context via `window.open`. -/
def openWindowUrls (effects : List Effect) : List String :=
  effects.filterMap fun e =>
    match e with
    | .openWindow url => some url
    | _ => none

/-- The browser interactions (dialog, navigate, openWindow) in a trace. -/
def browserEffects (effects : List Effect) : List Effect :=
  effects.filter fun e =>
    match e with
    | .dialog _ => true
    | .navigate _ => true
    | .openWindow _ => true
    | _ => false

/-! ## Mutating wrappers (src/lib/sveltekit/index.ts) -/

/-- check: server-side feature check. Invoke, unwrap, then if refetch
(default true) await `invalidate("autumn:customer")`, and return the
unwrapped CheckResult. An unwrap failure propagates and skips the rest. -/
def check (_params : CheckParams) (outcome : RemoteOutcome CheckResult)
    (options : RefetchOptions) : WrapperRun CheckResult :=
  match outcome with
  | .threw msg => (.error (.transport msg), [])
  | .returned result =>
    match unwrapAutumnResponse result with
    | .error e => (.error (.autumn e), [])
    | .ok response =>
      let refetch := options.refetch.getD true
      if refetch then
        (.ok response, [.invalidate "autumn:customer"])
      else
        (.ok response, [])

/-- checkout: initiate checkout. After a successful unwrap, if a dialog
callback was supplied and a URL returned, the callback is invoked with the
URL, but only in a browser context; then the optional refetch; the payload
is returned. -/
def checkout (params : CheckoutParams) (outcome : RemoteOutcome CheckoutData)
    (options : RefetchOptions) (isBrowser : Bool) : WrapperRun CheckoutData :=
  match outcome with
  | .threw msg => (.error (.transport msg), [])
  | .returned result =>
    match unwrapAutumnResponse result with
    | .error e => (.error (.autumn e), [])
    | .ok data =>
      let dialogEffects : List Effect :=
        match params.dialog, data.url with
        | some _, some url => if isBrowser then [.dialog url] else []
        | _, _ => []
      let refetch := options.refetch.getD true
      let refetchEffects : List Effect :=
        if refetch then [.invalidate "autumn:customer"] else []
      (.ok data, dialogEffects ++ refetchEffects)

/-- track: record feature usage. Invoke, unwrap, optional refetch, return. -/
def track (_params : TrackParams) (outcome : RemoteOutcome TrackResult)
    (options : RefetchOptions) : WrapperRun TrackResult :=
  match outcome with
  | .threw msg => (.error (.transport msg), [])
  | .returned result =>
    match unwrapAutumnResponse result with
    | .error e => (.error (.autumn e), [])
    | .ok data =>
      let refetch := options.refetch.getD true
      if refetch then
        (.ok data, [.invalidate "autumn:customer"])
      else
        (.ok data, [])

/-- attach: attach a product; the unwrapped payload is discarded (void),
but unwrap failures still propagate. -/
def attach (_params : AttachParams) (outcome : RemoteOutcome Unit)
    (options : RefetchOptions) : WrapperRun Unit :=
  match outcome with
  | .threw msg => (.error (.transport msg), [])
  | .returned result =>
    match unwrapAutumnResponse result with
    | .error e => (.error (.autumn e), [])
    | .ok _ =>
      let refetch := options.refetch.getD true
      if refetch then
        (.ok (), [.invalidate "autumn:customer"])
      else
        (.ok (), [])

/-- cancel: cancel a subscription; same shape as attach. -/
def cancel (_params : CancelParams) (outcome : RemoteOutcome Unit)
    (options : RefetchOptions) : WrapperRun Unit :=
  match outcome with
  | .threw msg => (.error (.transport msg), [])
  | .returned result =>
    match unwrapAutumnResponse result with
    | .error e => (.error (.autumn e), [])
    | .ok _ =>
      let refetch := options.refetch.getD true
      if refetch then
        (.ok (), [.invalidate "autumn:customer"])
      else
        (.ok (), [])

/-- createEntity: create an entity, optional refetch, return the entity. -/
def createEntity (_params : CreateEntityParams) (outcome : RemoteOutcome Entity)
    (options : RefetchOptions) : WrapperRun Entity :=
  match outcome with
  | .threw msg => (.error (.transport msg), [])
  | .returned result =>
    match unwrapAutumnResponse result with
    | .error e => (.error (.autumn e), [])
    | .ok entity =>
      let refetch := options.refetch.getD true
      if refetch then
        (.ok entity, [.invalidate "autumn:customer"])
      else
        (.ok entity, [])

/-- setupPayment: payment setup. In a browser context, when a URL is
returned, navigate to it via `window.location.href`; then optional
refetch; return the payload. -/
def setupPayment (_params : SetupPaymentParams)
    (outcome : RemoteOutcome SetupPaymentResult) (options : RefetchOptions)
    (isBrowser : Bool) : WrapperRun SetupPaymentResult :=
  match outcome with
  | .threw msg => (.error (.transport msg), [])
  | .returned result =>
    match unwrapAutumnResponse result with
    | .error e => (.error (.autumn e), [])
    | .ok data =>
      let navEffects : List Effect :=
        match data.url with
        | some url => if isBrowser then [.navigate url] else []
        | none => []
      let refetch := options.refetch.getD true
      let refetchEffects : List Effect :=
        if refetch then [.invalidate "autumn:customer"] else []
      (.ok data, navEffects ++ refetchEffects)

/-- createReferralCode: create a referral code; mutating shape. -/
def createReferralCode (_params : CreateReferralCodeParams)
    (outcome : RemoteOutcome CreateReferralCodeResult)
    (options : RefetchOptions) : WrapperRun CreateReferralCodeResult :=
  match outcome with
  | .threw msg => (.error (.transport msg), [])
  | .returned result =>
    match unwrapAutumnResponse result with
    | .error e => (.error (.autumn e), [])
    | .ok data =>
      let refetch := options.refetch.getD true
      if refetch then
        (.ok data, [.invalidate "autumn:customer"])
      else
        (.ok data, [])

/-- redeemReferralCode: redeem a referral code; mutating shape. -/
def redeemReferralCode (_params : RedeemReferralCodeParams)
    (outcome : RemoteOutcome RedeemReferralCodeResult)
    (options : RefetchOptions) : WrapperRun RedeemReferralCodeResult :=
  match outcome with
  | .threw msg => (.error (.transport msg), [])
  | .returned result =>
    match unwrapAutumnResponse result with
    | .error e => (.error (.autumn e), [])
    | .ok data =>
      let refetch := options.refetch.getD true
      if refetch then
        (.ok data, [.invalidate "autumn:customer"])
      else
        (.ok data, [])

/-! ## Read-only wrappers (src/lib/sveltekit/index.ts) -/

/-- openBillingPortal: fetch the portal URL; in a browser context, when a
URL is returned, open it in a new tab; never refetches. -/
def openBillingPortal (_params : BillingPortalParams)
    (outcome : RemoteOutcome BillingPortalResult) (isBrowser : Bool) :
    WrapperRun BillingPortalResult :=
  match outcome with
  | .threw msg => (.error (.transport msg), [])
  | .returned result =>
    match unwrapAutumnResponse result with
    | .error e => (.error (.autumn e), [])
    | .ok data =>
      match data.url with
      | some url =>
        if isBrowser then (.ok data, [.openWindow url]) else (.ok data, [])
      | none => (.ok data, [])

/-- getEntity: fetch an entity by id; invoke, unwrap, return. -/
def getEntity (_params : GetEntityParams) (outcome : RemoteOutcome Entity) :
    WrapperRun Entity :=
  match outcome with
  | .threw msg => (.error (.transport msg), [])
  | .returned result =>
    match unwrapAutumnResponse result with
    | .error e => (.error (.autumn e), [])
    | .ok entity => (.ok entity, [])

/-- The payload of the listProducts response: {list: Product[]}. -/
structure ProductListData where
  list : List Product
deriving Repr, DecidableEq

/-- listProducts: fetch the catalog, unwrap the {list} payload, return the
list. -/
def listProducts (outcome : RemoteOutcome ProductListData) :
    WrapperRun (List Product) :=
  match outcome with
  | .threw msg => (.error (.transport msg), [])
  | .returned result =>
    match unwrapAutumnResponse result with
    | .error e => (.error (.autumn e), [])
    | .ok data => (.ok data.list, [])

/-- usage: set usage to an absolute value. Takes no refetch options at all
and never refetches. -/
def usage (_params : SetUsageParams) (outcome : RemoteOutcome SetUsageResult) :
    WrapperRun SetUsageResult :=
  match outcome with
  | .threw msg => (.error (.transport msg), [])
  | .returned result =>
    match unwrapAutumnResponse result with
    | .error e => (.error (.autumn e), [])
    | .ok data => (.ok data, [])

/-- query: query customer data; invoke, unwrap, return. -/
def query (_params : QueryParams) (outcome : RemoteOutcome QueryResult) :
    WrapperRun QueryResult :=
  match outcome with
  | .threw msg => (.error (.transport msg), [])
  | .returned result =>
    match unwrapAutumnResponse result with
    | .error e => (.error (.autumn e), [])
    | .ok data => (.ok data, [])

/-- refetch: manual refresh, a single targeted invalidation. -/
def refetch : WrapperRun Unit :=
  (.ok (), [.invalidate "autumn:customer"])

/-- A sample feature with balance 10, as in the end-to-end scenario. -/
def messagesFeature : Feature :=
  { id := "messages", name := "Messages", type := .single_use
    balance := some 10, included_usage := some 10, interval := some .month }

/-- A sample customer whose features record maps "messages" to a feature
with balance 10. -/
def sampleCustomer : Customer :=
  { id := "user_1", name := some "Ada"
    features := some [("messages", messagesFeature)] }

/-! ## Thrown values and the server-side customer fetch
(src/lib/sveltekit/server.ts, `createAutumnHandlers().getCustomer`) -/

/-- A JavaScript Error value, observed through its message. The
AutumnError thrown by unwrapping is an Error whose message is the
AutumnError message. -/
structure JSError where
  message : String
deriving Repr, DecidableEq

/-- A thrown JavaScript value: an Error instance, or any other value,
observed through its string rendering `String(value)`. -/
inductive Thrown where
  | errorVal (e : JSError)
  | other (rendering : String)
deriving Repr, DecidableEq

/-- `error instanceof Error ? error.message : String(error)`. -/
def errorMessageOf : Thrown → String
  | .errorVal e => e.message
  | .other rendering => rendering

/-- `haystack.includes(needle)`: JavaScript substring containment,
modelled on character lists. -/
def stringIncludes (haystack needle : String) : Bool :=
  (List.range (haystack.toList.length + 1)).any fun i =>
    needle.toList.isPrefixOf (haystack.toList.drop i)

/-- The substring identifying the unauthenticated case in getCustomer. -/
def noCustomerIdSubstring : String := "No customer identifier found"

/-- Outcome of the try-block prelude of getCustomer: either creating the
client or awaiting the action threw, or the action returned an envelope
(which is then unwrapped inside the same try). -/
def GetCustomerOutcome := Except Thrown (AutumnActionResponse Customer)

/-- getCustomer: server-side customer fetch. Returns the unwrapped
customer on success. Any throw is caught: if the error message contains
the no-customer-identifier substring (unauthenticated), return null
silently; otherwise log the error (the returned Bool) and return null.
The helper itself never throws: it is a total function into
(Option Customer × Bool), the Bool recording whether console.error ran. -/
def getCustomer (outcome : GetCustomerOutcome) : Option Customer × Bool :=
  let handleCatch : Thrown → Option Customer × Bool := fun err =>
    let errorMessage := errorMessageOf err
    if stringIncludes errorMessage noCustomerIdSubstring then
      (none, false)
    else
      (none, true)
  match outcome with
  | .error err => handleCatch err
  | .ok response =>
    match unwrapAutumnResponse response with
    | .error e => handleCatch (.errorVal ⟨e.message⟩)
    | .ok customer => (some customer, false)

/-! ## useAutumnOperation (src/lib/sveltekit/index.ts) -/

/-- The reactive state of useAutumnOperation: isLoading, error, result. -/
structure OperationState (TResult : Type) where
  isLoading : Bool
  error : Option JSError
  result : Option TResult
deriving Repr, DecidableEq

/-- `err instanceof Error ? err : new Error(String(err))`. -/
def coerceToError : Thrown → JSError
  | .errorVal e => e
  | .other rendering => ⟨rendering⟩

/-- execute of useAutumnOperation: sets isLoading and clears error, awaits
the wrapped operation (whose settled outcome is the input), then on
success stores and returns the result; on a throw stores the coerced
error, clears the result and returns null; finally clears isLoading.
Returns the state after settling together with the returned value; it
never rejects (total function, every throw is caught). -/
def executeOperation {TResult : Type} (state : OperationState TResult)
    (opOutcome : Except Thrown TResult) :
    OperationState TResult × Option TResult :=
  let running : OperationState TResult :=
    { state with isLoading := true, error := none }
  match opOutcome with
  | .ok operationResult =>
    ({ running with isLoading := false, result := some operationResult },
      some operationResult)
  | .error err =>
    let failed : OperationState TResult :=
      { running with
        isLoading := false
        error := some (coerceToError err)
        result := none }
    (failed, none)

/-- reset of useAutumnOperation: clears all three state fields. -/
def resetOperation {TResult : Type} (_state : OperationState TResult) :
    OperationState TResult :=
  { isLoading := false, error := none, result := none }

/-! ## Theorems -/

/-- C1: for every operation envelope, if the error arm is populated,
unwrapping throws an AutumnError whose code equals the envelope error
code and which carries the envelope error message and optional status
code; if neither the error arm nor the payload is populated, unwrapping
throws an AutumnError with code "NO_DATA"; otherwise unwrapping returns
the payload unchanged. -/
theorem unwrap_error_mapping {T : Type} (response : AutumnActionResponse T) :
    (∀ e, response.error = some e →
      unwrapAutumnResponse response =
        .error ⟨e.message, e.code, response.statusCode⟩) ∧
    (response.error = none → response.data = none →
      unwrapAutumnResponse response =
        .error ⟨"No data in response", "NO_DATA", response.statusCode⟩) ∧
    (∀ d, response.error = none → response.data = some d →
      unwrapAutumnResponse response = .ok d) := by
  obtain ⟨data, error, statusCode⟩ := response
  refine ⟨?_, ?_, ?_⟩
  · rintro e rfl
    rfl
  · rintro rfl rfl
    rfl
  · rintro d rfl rfl
    rfl

/-- C2: the local access check `allowed` denies with reason
"No customer data" when no snapshot is cached, with "Feature not found"
when the feature id is absent from the features record, with a shortfall
message when the balance is defined and below the required balance
(defaulting to 1), and allows otherwise; on the sample customer with
balance 10, requiredBalance 11 yields the reason
"Insufficient balance: 10 < 11". -/
theorem allowed_matches_spec (cache : Option Customer) (params : CheckParams) :
    (cache = none → allowed cache params = ⟨false, some "No customer data"⟩) ∧
    (∀ c, cache = some c → featureLookup c params.featureId = none →
      allowed cache params = ⟨false, some "Feature not found"⟩) ∧
    (∀ c f b, cache = some c → featureLookup c params.featureId = some f →
      f.balance = some b → b < params.requiredBalance.getD 1 →
      allowed cache params = ⟨false, some ("Insufficient balance: " ++
        toString b ++ " < " ++ toString (params.requiredBalance.getD 1))⟩) ∧
    (∀ c f, cache = some c → featureLookup c params.featureId = some f →
      (∀ b, f.balance = some b → params.requiredBalance.getD 1 ≤ b) →
      allowed cache params = ⟨true, none⟩) ∧
    (allowed cache { params with requiredBalance := none } =
      allowed cache { params with requiredBalance := some 1 }) ∧
    (allowed (some sampleCustomer) { featureId := "messages", requiredBalance := some 11 } =
      ⟨false, some "Insufficient balance: 10 < 11"⟩) ∧
    (allowed (some sampleCustomer) { featureId := "messages", requiredBalance := some 1 } =
      ⟨true, none⟩) := by
  refine ⟨?_, ?_, ?_, ?_, ?_, by decide, by decide⟩
  · rintro rfl
    rfl
  · rintro c rfl hlook
    simp [allowed, hlook]
  · rintro c f b rfl hlook hbal hlt
    simp [allowed, hlook, hbal, hlt]
  · rintro c f rfl hlook hge
    cases hbal : f.balance with
    | none => simp [allowed, hlook, hbal]
    | some b =>
      have := hge b hbal
      simp [allowed, hlook, hbal, not_lt.mpr this]
  · cases cache with
    | none => rfl
    | some c =>
      simp only [allowed]
      rfl

/-- C8: for all cache states and all (featureId, requiredBalance) inputs,
the local access check terminates (it is a total function) and returns
exactly one of allow (no reason) or deny with a reason, never throwing. -/
theorem allowed_total (cache : Option Customer) (params : CheckParams) :
    ((allowed cache params).allowed = true ∧
      (allowed cache params).reason = none) ∨
    ((allowed cache params).allowed = false ∧
      ∃ r, (allowed cache params).reason = some r) := by
  cases cache with
  | none => right; exact ⟨rfl, _, rfl⟩
  | some customer =>
    cases hlook : featureLookup customer params.featureId with
    | none => right; simp [allowed, hlook]
    | some feature =>
      cases hbal : feature.balance with
      | none => left; simp [allowed, hlook, hbal]
      | some b =>
        by_cases h : b < params.requiredBalance.getD 1
        · right; simp [allowed, hlook, hbal, h]
        · left; simp [allowed, hlook, hbal, h]

/-- C3: every mutating wrapper (check, checkout, track, attach, cancel,
createEntity, setupPayment, createReferralCode, redeemReferralCode)
called with default options performs, when the remote call returns and
the unwrap succeeds, exactly one invalidation scoped to the
"autumn:customer" dependency key before settling, and resolves with the
unwrapped payload. -/
theorem mutating_wrappers_refetch_by_default :
    (∀ (params : CheckParams) (r : AutumnActionResponse CheckResult) d,
      unwrapAutumnResponse r = .ok d →
      (check params (.returned r) {}).1 = .ok d ∧
      invalidations (check params (.returned r) {}).2 = ["autumn:customer"]) ∧
    (∀ (params : CheckoutParams) (r : AutumnActionResponse CheckoutData) d ib,
      unwrapAutumnResponse r = .ok d →
      (checkout params (.returned r) {} ib).1 = .ok d ∧
      invalidations (checkout params (.returned r) {} ib).2 = ["autumn:customer"]) ∧
    (∀ (params : TrackParams) (r : AutumnActionResponse TrackResult) d,
      unwrapAutumnResponse r = .ok d →
      (track params (.returned r) {}).1 = .ok d ∧
      invalidations (track params (.returned r) {}).2 = ["autumn:customer"]) ∧
    (∀ (params : AttachParams) (r : AutumnActionResponse Unit) d,
      unwrapAutumnResponse r = .ok d →
      (attach params (.returned r) {}).1 = .ok d ∧
      invalidations (attach params (.returned r) {}).2 = ["autumn:customer"]) ∧
    (∀ (params : CancelParams) (r : AutumnActionResponse Unit) d,
      unwrapAutumnResponse r = .ok d →
      (cancel params (.returned r) {}).1 = .ok d ∧
      invalidations (cancel params (.returned r) {}).2 = ["autumn:customer"]) ∧
    (∀ (params : CreateEntityParams) (r : AutumnActionResponse Entity) d,
      unwrapAutumnResponse r = .ok d →
      (createEntity params (.returned r) {}).1 = .ok d ∧
      invalidations (createEntity params (.returned r) {}).2 = ["autumn:customer"]) ∧
    (∀ (params : SetupPaymentParams) (r : AutumnActionResponse SetupPaymentResult) d ib,
      unwrapAutumnResponse r = .ok d →
      (setupPayment params (.returned r) {} ib).1 = .ok d ∧
      invalidations (setupPayment params (.returned r) {} ib).2 = ["autumn:customer"]) ∧
    (∀ (params : CreateReferralCodeParams)
      (r : AutumnActionResponse CreateReferralCodeResult) d,
      unwrapAutumnResponse r = .ok d →
      (createReferralCode params (.returned r) {}).1 = .ok d ∧
      invalidations (createReferralCode params (.returned r) {}).2 = ["autumn:customer"]) ∧
    (∀ (params : RedeemReferralCodeParams)
      (r : AutumnActionResponse RedeemReferralCodeResult) d,
      unwrapAutumnResponse r = .ok d →
      (redeemReferralCode params (.returned r) {}).1 = .ok d ∧
      invalidations (redeemReferralCode params (.returned r) {}).2 = ["autumn:customer"]) := by
  refine ⟨?_, ?_, ?_, ?_, ?_, ?_, ?_, ?_, ?_⟩
  · intro params r d h
    simp [check, h, invalidations]
  · intro params r d ib h
    refine ⟨?_, ?_⟩ <;>
      cases hd : params.dialog <;> cases hu : d.url <;> cases ib <;>
        simp [checkout, h, hd, hu, invalidations]
  · intro params r d h
    simp [track, h, invalidations]
  · intro params r d h
    simp [attach, h, invalidations]
  · intro params r d h
    simp [cancel, h, invalidations]
  · intro params r d h
    simp [createEntity, h, invalidations]
  · intro params r d ib h
    refine ⟨?_, ?_⟩ <;>
      cases hu : d.url <;> cases ib <;>
        simp [setupPayment, h, hu, invalidations]
  · intro params r d h
    simp [createReferralCode, h, invalidations]
  · intro params r d h
    simp [redeemReferralCode, h, invalidations]

/-- C4: for every mutating wrapper, every input and every option value,
if the remote call itself throws the wrapper rethrows the transport
failure, and if the envelope carries an error the wrapper throws the
typed AutumnError; in both cases the effect trace is empty, so no
invalidation (and no cache write) happens before the throw. -/
theorem mutating_wrappers_failure_skips_refetch :
    (∀ (params : CheckParams) msg opts,
      check params (.threw msg) opts = (.error (.transport msg), [])) ∧
    (∀ (params : CheckParams) (r : AutumnActionResponse CheckResult) e opts,
      unwrapAutumnResponse r = .error e →
      check params (.returned r) opts = (.error (.autumn e), [])) ∧
    (∀ (params : CheckoutParams) msg opts ib,
      checkout params (.threw msg) opts ib = (.error (.transport msg), [])) ∧
    (∀ (params : CheckoutParams) (r : AutumnActionResponse CheckoutData) e opts ib,
      unwrapAutumnResponse r = .error e →
      checkout params (.returned r) opts ib = (.error (.autumn e), [])) ∧
    (∀ (params : TrackParams) msg opts,
      track params (.threw msg) opts = (.error (.transport msg), [])) ∧
    (∀ (params : TrackParams) (r : AutumnActionResponse TrackResult) e opts,
      unwrapAutumnResponse r = .error e →
      track params (.returned r) opts = (.error (.autumn e), [])) ∧
    (∀ (params : AttachParams) msg opts,
      attach params (.threw msg) opts = (.error (.transport msg), [])) ∧
    (∀ (params : AttachParams) (r : AutumnActionResponse Unit) e opts,
      unwrapAutumnResponse r = .error e →
      attach params (.returned r) opts = (.error (.autumn e), [])) ∧
    (∀ (params : CancelParams) msg opts,
      cancel params (.threw msg) opts = (.error (.transport msg), [])) ∧
    (∀ (params : CancelParams) (r : AutumnActionResponse Unit) e opts,
      unwrapAutumnResponse r = .error e →
      cancel params (.returned r) opts = (.error (.autumn e), [])) ∧
    (∀ (params : CreateEntityParams) msg opts,
      createEntity params (.threw msg) opts = (.error (.transport msg), [])) ∧
    (∀ (params : CreateEntityParams) (r : AutumnActionResponse Entity) e opts,
      unwrapAutumnResponse r = .error e →
      createEntity params (.returned r) opts = (.error (.autumn e), [])) ∧
    (∀ (params : SetupPaymentParams) msg opts ib,
      setupPayment params (.threw msg) opts ib = (.error (.transport msg), [])) ∧
    (∀ (params : SetupPaymentParams) (r : AutumnActionResponse SetupPaymentResult) e opts ib,
      unwrapAutumnResponse r = .error e →
      setupPayment params (.returned r) opts ib = (.error (.autumn e), [])) ∧
    (∀ (params : CreateReferralCodeParams) msg opts,
      createReferralCode params (.threw msg) opts = (.error (.transport msg), [])) ∧
    (∀ (params : CreateReferralCodeParams)
      (r : AutumnActionResponse CreateReferralCodeResult) e opts,
      unwrapAutumnResponse r = .error e →
      createReferralCode params (.returned r) opts = (.error (.autumn e), [])) ∧
    (∀ (params : RedeemReferralCodeParams) msg opts,
      redeemReferralCode params (.threw msg) opts = (.error (.transport msg), [])) ∧
    (∀ (params : RedeemReferralCodeParams)
      (r : AutumnActionResponse RedeemReferralCodeResult) e opts,
      unwrapAutumnResponse r = .error e →
      redeemReferralCode params (.returned r) opts = (.error (.autumn e), [])) := by
  refine ⟨fun _ _ _ => rfl, ?_, fun _ _ _ _ => rfl, ?_, fun _ _ _ => rfl, ?_,
    fun _ _ _ => rfl, ?_, fun _ _ _ => rfl, ?_, fun _ _ _ => rfl, ?_,
    fun _ _ _ _ => rfl, ?_, fun _ _ _ => rfl, ?_, fun _ _ _ => rfl, ?_⟩
  · intro params r e opts h
    simp [check, h]
  · intro params r e opts ib h
    simp [checkout, h]
  · intro params r e opts h
    simp [track, h]
  · intro params r e opts h
    simp [attach, h]
  · intro params r e opts h
    simp [cancel, h]
  · intro params r e opts h
    simp [createEntity, h]
  · intro params r e opts ib h
    simp [setupPayment, h]
  · intro params r e opts h
    simp [createReferralCode, h]
  · intro params r e opts h
    simp [redeemReferralCode, h]

/-- C5: every mutating wrapper called with refetch set to false performs
no invalidation and no direct write to the cached customer slot, for
every remote outcome. -/
theorem mutating_wrappers_refetch_false_no_refetch :
    (∀ (params : CheckParams) outcome,
      invalidations (check params outcome ⟨some false⟩).2 = [] ∧
      cacheWrites (check params outcome ⟨some false⟩).2 = []) ∧
    (∀ (params : CheckoutParams) outcome ib,
      invalidations (checkout params outcome ⟨some false⟩ ib).2 = [] ∧
      cacheWrites (checkout params outcome ⟨some false⟩ ib).2 = []) ∧
    (∀ (params : TrackParams) outcome,
      invalidations (track params outcome ⟨some false⟩).2 = [] ∧
      cacheWrites (track params outcome ⟨some false⟩).2 = []) ∧
    (∀ (params : AttachParams) outcome,
      invalidations (attach params outcome ⟨some false⟩).2 = [] ∧
      cacheWrites (attach params outcome ⟨some false⟩).2 = []) ∧
    (∀ (params : CancelParams) outcome,
      invalidations (cancel params outcome ⟨some false⟩).2 = [] ∧
      cacheWrites (cancel params outcome ⟨some false⟩).2 = []) ∧
    (∀ (params : CreateEntityParams) outcome,
      invalidations (createEntity params outcome ⟨some false⟩).2 = [] ∧
      cacheWrites (createEntity params outcome ⟨some false⟩).2 = []) ∧
    (∀ (params : SetupPaymentParams) outcome ib,
      invalidations (setupPayment params outcome ⟨some false⟩ ib).2 = [] ∧
      cacheWrites (setupPayment params outcome ⟨some false⟩ ib).2 = []) ∧
    (∀ (params : CreateReferralCodeParams) outcome,
      invalidations (createReferralCode params outcome ⟨some false⟩).2 = [] ∧
      cacheWrites (createReferralCode params outcome ⟨some false⟩).2 = []) ∧
    (∀ (params : RedeemReferralCodeParams) outcome,
      invalidations (redeemReferralCode params outcome ⟨some false⟩).2 = [] ∧
      cacheWrites (redeemReferralCode params outcome ⟨some false⟩).2 = []) := by
  refine ⟨?_, ?_, ?_, ?_, ?_, ?_, ?_, ?_, ?_⟩
  · rintro params (msg | r)
    · exact ⟨rfl, rfl⟩
    · cases h : unwrapAutumnResponse r <;>
        simp [check, h, invalidations, cacheWrites]
  · rintro params (msg | r) ib
    · exact ⟨rfl, rfl⟩
    · cases h : unwrapAutumnResponse r with
      | error e => simp [checkout, h, invalidations, cacheWrites]
      | ok d =>
        cases hd : params.dialog <;> cases hu : d.url <;> cases ib <;>
          simp [checkout, h, hd, hu, invalidations, cacheWrites]
  · rintro params (msg | r)
    · exact ⟨rfl, rfl⟩
    · cases h : unwrapAutumnResponse r <;>
        simp [track, h, invalidations, cacheWrites]
  · rintro params (msg | r)
    · exact ⟨rfl, rfl⟩
    · cases h : unwrapAutumnResponse r <;>
        simp [attach, h, invalidations, cacheWrites]
  · rintro params (msg | r)
    · exact ⟨rfl, rfl⟩
    · cases h : unwrapAutumnResponse r <;>
        simp [cancel, h, invalidations, cacheWrites]
  · rintro params (msg | r)
    · exact ⟨rfl, rfl⟩
    · cases h : unwrapAutumnResponse r <;>
        simp [createEntity, h, invalidations, cacheWrites]
  · rintro params (msg | r) ib
    · exact ⟨rfl, rfl⟩
    · cases h : unwrapAutumnResponse r with
      | error e => simp [setupPayment, h, invalidations, cacheWrites]
      | ok d =>
        cases hu : d.url <;> cases ib <;>
          simp [setupPayment, h, hu, invalidations, cacheWrites]
  · rintro params (msg | r)
    · exact ⟨rfl, rfl⟩
    · cases h : unwrapAutumnResponse r <;>
        simp [createReferralCode, h, invalidations, cacheWrites]
  · rintro params (msg | r)
    · exact ⟨rfl, rfl⟩
    · cases h : unwrapAutumnResponse r <;>
        simp [redeemReferralCode, h, invalidations, cacheWrites]

/-- C6: the read-only wrappers getEntity, listProducts, usage (absolute
set), query and openBillingPortal never invalidate and never write the
cached customer slot, for every input and outcome; usage takes no
refetch options at all. -/
theorem read_only_wrappers_never_refetch :
    (∀ (params : GetEntityParams) outcome,
      invalidations (getEntity params outcome).2 = [] ∧
      cacheWrites (getEntity params outcome).2 = []) ∧
    (∀ outcome,
      invalidations (listProducts outcome).2 = [] ∧
      cacheWrites (listProducts outcome).2 = []) ∧
    (∀ (params : SetUsageParams) outcome,
      invalidations (usage params outcome).2 = [] ∧
      cacheWrites (usage params outcome).2 = []) ∧
    (∀ (params : QueryParams) outcome,
      invalidations (query params outcome).2 = [] ∧
      cacheWrites (query params outcome).2 = []) ∧
    (∀ (params : BillingPortalParams) outcome ib,
      invalidations (openBillingPortal params outcome ib).2 = [] ∧
      cacheWrites (openBillingPortal params outcome ib).2 = []) := by
  refine ⟨?_, ?_, ?_, ?_, ?_⟩
  · rintro params (msg | r)
    · exact ⟨rfl, rfl⟩
    · cases h : unwrapAutumnResponse r <;>
        simp [getEntity, h, invalidations, cacheWrites]
  · rintro (msg | r)
    · exact ⟨rfl, rfl⟩
    · cases h : unwrapAutumnResponse r <;>
        simp [listProducts, h, invalidations, cacheWrites]
  · rintro params (msg | r)
    · exact ⟨rfl, rfl⟩
    · cases h : unwrapAutumnResponse r <;>
        simp [usage, h, invalidations, cacheWrites]
  · rintro params (msg | r)
    · exact ⟨rfl, rfl⟩
    · cases h : unwrapAutumnResponse r <;>
        simp [query, h, invalidations, cacheWrites]
  · rintro params (msg | r) ib
    · exact ⟨rfl, rfl⟩
    · cases h : unwrapAutumnResponse r with
      | error e => simp [openBillingPortal, h, invalidations, cacheWrites]
      | ok d =>
        cases hu : d.url <;> cases ib <;>
          simp [openBillingPortal, h, hu, invalidations, cacheWrites]

/-- C7: the server-side getCustomer helper never throws (it is a total
function into an optional customer plus a logging flag): when the caught
error message contains the no-customer-identifier substring it returns
null without logging; on any other failure, including an AutumnError
raised by unwrapping the envelope, it logs and returns null; on success
it returns the unwrapped customer. -/
theorem getCustomer_never_throws (outcome : GetCustomerOutcome) :
    (∀ err, outcome = .error err →
      stringIncludes (errorMessageOf err) noCustomerIdSubstring = true →
      getCustomer outcome = (none, false)) ∧
    (∀ err, outcome = .error err →
      stringIncludes (errorMessageOf err) noCustomerIdSubstring = false →
      getCustomer outcome = (none, true)) ∧
    (∀ r e, outcome = .ok r → unwrapAutumnResponse r = .error e →
      getCustomer outcome =
        (none, !stringIncludes e.message noCustomerIdSubstring)) ∧
    (∀ r c, outcome = .ok r → unwrapAutumnResponse r = .ok c →
      getCustomer outcome = (some c, false)) := by
  refine ⟨?_, ?_, ?_, ?_⟩
  · rintro err rfl h
    simp [getCustomer, h]
  · rintro err rfl h
    simp [getCustomer, h]
  · rintro r e rfl h
    cases hs : stringIncludes e.message noCustomerIdSubstring <;>
      simp [getCustomer, h, errorMessageOf, hs]
  · rintro r c rfl h
    simp [getCustomer, h]

/-- C9: URL-producing wrappers interact with the browser only when the
isBrowser predicate holds: checkout invokes the supplied dialog callback
with the returned URL exactly when a callback was supplied, a URL was
returned and isBrowser is true; setupPayment navigates to the returned
URL and openBillingPortal opens it in a new browsing context exactly when
a URL was returned and isBrowser is true; with isBrowser false no wrapper
emits any browser effect, and the remaining wrappers emit none in any
context. -/
theorem browser_effects_gated_by_isBrowser :
    (∀ (params : CheckoutParams) (r : AutumnActionResponse CheckoutData) d cb url opts,
      unwrapAutumnResponse r = .ok d → params.dialog = some cb → d.url = some url →
      dialogUrls (checkout params (.returned r) opts true).2 = [url]) ∧
    (∀ (params : CheckoutParams) (r : AutumnActionResponse CheckoutData) d opts ib,
      unwrapAutumnResponse r = .ok d →
      (params.dialog = none ∨ d.url = none ∨ ib = false) →
      dialogUrls (checkout params (.returned r) opts ib).2 = []) ∧
    (∀ (params : SetupPaymentParams) (r : AutumnActionResponse SetupPaymentResult) d url opts,
      unwrapAutumnResponse r = .ok d → d.url = some url →
      navigateUrls (setupPayment params (.returned r) opts true).2 = [url]) ∧
    (∀ (params : SetupPaymentParams) (r : AutumnActionResponse SetupPaymentResult) d opts ib,
      unwrapAutumnResponse r = .ok d → (d.url = none ∨ ib = false) →
      navigateUrls (setupPayment params (.returned r) opts ib).2 = []) ∧
    (∀ (params : BillingPortalParams) (r : AutumnActionResponse BillingPortalResult) d url,
      unwrapAutumnResponse r = .ok d → d.url = some url →
      openWindowUrls (openBillingPortal params (.returned r) true).2 = [url]) ∧
    (∀ (params : BillingPortalParams) (r : AutumnActionResponse BillingPortalResult) d ib,
      unwrapAutumnResponse r = .ok d → (d.url = none ∨ ib = false) →
      openWindowUrls (openBillingPortal params (.returned r) ib).2 = []) ∧
    (∀ (params : CheckoutParams) outcome opts,
      browserEffects (checkout params outcome opts false).2 = []) ∧
    (∀ (params : SetupPaymentParams) outcome opts,
      browserEffects (setupPayment params outcome opts false).2 = []) ∧
    (∀ (params : BillingPortalParams) outcome,
      browserEffects (openBillingPortal params outcome false).2 = []) ∧
    (∀ (params : CheckParams) outcome opts,
      browserEffects (check params outcome opts).2 = []) ∧
    (∀ (params : TrackParams) outcome opts,
      browserEffects (track params outcome opts).2 = []) ∧
    (∀ (params : AttachParams) outcome opts,
      browserEffects (attach params outcome opts).2 = []) ∧
    (∀ (params : CancelParams) outcome opts,
      browserEffects (cancel params outcome opts).2 = []) ∧
    (∀ (params : CreateEntityParams) outcome opts,
      browserEffects (createEntity params outcome opts).2 = []) ∧
    (∀ (params : CreateReferralCodeParams) outcome opts,
      browserEffects (createReferralCode params outcome opts).2 = []) ∧
    (∀ (params : RedeemReferralCodeParams) outcome opts,
      browserEffects (redeemReferralCode params outcome opts).2 = []) ∧
    (∀ (params : GetEntityParams) outcome,
      browserEffects (getEntity params outcome).2 = []) ∧
    (∀ outcome, browserEffects (listProducts outcome).2 = []) ∧
    (∀ (params : SetUsageParams) outcome,
      browserEffects (usage params outcome).2 = []) ∧
    (∀ (params : QueryParams) outcome,
      browserEffects (query params outcome).2 = []) := by
  refine ⟨?_, ?_, ?_, ?_, ?_, ?_, ?_, ?_, ?_, ?_, ?_, ?_, ?_, ?_, ?_, ?_, ?_, ?_, ?_, ?_⟩
  · intro params r d cb url opts h hd hu
    cases hr : (opts.refetch.getD true) <;>
      simp [checkout, h, hd, hu, hr, dialogUrls]
  · intro params r d opts ib h hcase
    rcases hcase with hd | hu | hb
    · cases hu : d.url <;> cases ib <;> cases hr : (opts.refetch.getD true) <;>
        simp [checkout, h, hd, hu, hr, dialogUrls]
    · cases hd : params.dialog <;> cases ib <;> cases hr : (opts.refetch.getD true) <;>
        simp [checkout, h, hd, hu, hr, dialogUrls]
    · subst hb
      cases hd : params.dialog <;> cases hu : d.url <;> cases hr : (opts.refetch.getD true) <;>
        simp [checkout, h, hd, hu, hr, dialogUrls]
  · intro params r d url opts h hu
    cases hr : (opts.refetch.getD true) <;>
      simp [setupPayment, h, hu, hr, navigateUrls]
  · intro params r d opts ib h hcase
    rcases hcase with hu | hb
    · cases ib <;> cases hr : (opts.refetch.getD true) <;>
        simp [setupPayment, h, hu, hr, navigateUrls]
    · subst hb
      cases hu : d.url <;> cases hr : (opts.refetch.getD true) <;>
        simp [setupPayment, h, hu, hr, navigateUrls]
  · intro params r d url h hu
    simp [openBillingPortal, h, hu, openWindowUrls]
  · intro params r d ib h hcase
    rcases hcase with hu | hb
    · cases ib <;> simp [openBillingPortal, h, hu, openWindowUrls]
    · subst hb
      cases hu : d.url <;> simp [openBillingPortal, h, hu, openWindowUrls]
  · rintro params (msg | r) opts
    · rfl
    · cases h : unwrapAutumnResponse r with
      | error e => simp [checkout, h, browserEffects]
      | ok d =>
        cases hd : params.dialog <;> cases hu : d.url <;>
          cases hr : (opts.refetch.getD true) <;>
            simp [checkout, h, hd, hu, hr, browserEffects]
  · rintro params (msg | r) opts
    · rfl
    · cases h : unwrapAutumnResponse r with
      | error e => simp [setupPayment, h, browserEffects]
      | ok d =>
        cases hu : d.url <;> cases hr : (opts.refetch.getD true) <;>
          simp [setupPayment, h, hu, hr, browserEffects]
  · rintro params (msg | r)
    · rfl
    · cases h : unwrapAutumnResponse r with
      | error e => simp [openBillingPortal, h, browserEffects]
      | ok d =>
        cases hu : d.url <;> simp [openBillingPortal, h, hu, browserEffects]
  · rintro params (msg | r) opts
    · rfl
    · cases h : unwrapAutumnResponse r <;>
        cases hr : (opts.refetch.getD true) <;>
          simp [check, h, hr, browserEffects]
  · rintro params (msg | r) opts
    · rfl
    · cases h : unwrapAutumnResponse r <;>
        cases hr : (opts.refetch.getD true) <;>
          simp [track, h, hr, browserEffects]
  · rintro params (msg | r) opts
    · rfl
    · cases h : unwrapAutumnResponse r <;>
        cases hr : (opts.refetch.getD true) <;>
          simp [attach, h, hr, browserEffects]
  · rintro params (msg | r) opts
    · rfl
    · cases h : unwrapAutumnResponse r <;>
        cases hr : (opts.refetch.getD true) <;>
          simp [cancel, h, hr, browserEffects]
  · rintro params (msg | r) opts
    · rfl
    · cases h : unwrapAutumnResponse r <;>
        cases hr : (opts.refetch.getD true) <;>
          simp [createEntity, h, hr, browserEffects]
  · rintro params (msg | r) opts
    · rfl
    · cases h : unwrapAutumnResponse r <;>
        cases hr : (opts.refetch.getD true) <;>
          simp [createReferralCode, h, hr, browserEffects]
  · rintro params (msg | r) opts
    · rfl
    · cases h : unwrapAutumnResponse r <;>
        cases hr : (opts.refetch.getD true) <;>
          simp [redeemReferralCode, h, hr, browserEffects]
  · rintro params (msg | r)
    · rfl
    · cases h : unwrapAutumnResponse r <;>
        simp [getEntity, h, browserEffects]
  · rintro (msg | r)
    · rfl
    · cases h : unwrapAutumnResponse r <;>
        simp [listProducts, h, browserEffects]
  · rintro params (msg | r)
    · rfl
    · cases h : unwrapAutumnResponse r <;>
        simp [usage, h, browserEffects]
  · rintro params (msg | r)
    · rfl
    · cases h : unwrapAutumnResponse r <;>
        simp [query, h, browserEffects]

/-- C10: execute of useAutumnOperation never rejects: on a successful
operation it stores the result, keeps error cleared and returns the
result; on a throw it stores the coerced Error, clears the result and
returns null; in every case isLoading is false after execute settles. -/
theorem executeOperation_never_rejects {TResult : Type}
    (state : OperationState TResult) (opOutcome : Except Thrown TResult) :
    (∀ r, opOutcome = .ok r →
      executeOperation state opOutcome =
        ({ isLoading := false, error := none, result := some r }, some r)) ∧
    (∀ err, opOutcome = .error err →
      executeOperation state opOutcome =
        ({ isLoading := false, error := some (coerceToError err),
            result := none }, none)) ∧
    (executeOperation state opOutcome).1.isLoading = false := by
  refine ⟨?_, ?_, ?_⟩
  · rintro r rfl
    rfl
  · rintro err rfl
    rfl
  · cases opOutcome <;> rfl

/-! ## Concrete evaluations

Sanity checks exercising the embedded operations on concrete inputs:
each case of the theorems above is realizable. -/

/-- A successful track with default options refetches once and resolves
with the unwrapped payload. -/
theorem track_success_example :
    track { featureId := "messages", value := 1 }
      (.returned { data := some { success := true, balance := some 9 }, error := none }) {} =
    (.ok { success := true, balance := some 9 },
      [.invalidate "autumn:customer"]) := by
  rfl

/-- A check whose envelope carries an error throws the typed error and
emits no effect. -/
theorem check_error_example :
    check { featureId := "messages" }
      (.returned ⟨none, some { message := "denied", code := "FORBIDDEN" }, some 403⟩) {} =
    (.error (.autumn { message := "denied", code := "FORBIDDEN", statusCode := some 403 }),
      []) := by
  rfl

/-- An envelope with neither arm populated unwraps to the NO_DATA error. -/
theorem unwrap_no_data_example :
    unwrapAutumnResponse (T := TrackResult) { data := none, error := none } =
      .error { message := "No data in response", code := "NO_DATA", statusCode := none } := by
  rfl

/-- The absolute usage setter emits no effect on success. -/
theorem usage_no_refetch_example :
    usage { featureId := "messages", value := 0 }
      (.returned { data := some { success := true }, error := none }) =
    (.ok { success := true }, []) := by
  rfl

/-- getCustomer converts the unauthenticated failure to null silently. -/
theorem getCustomer_unauthenticated_example :
    getCustomer (.error (.errorVal
      ⟨"AutumnError: No customer identifier found in session"⟩)) =
    (none, false) := by
  decide

/-- getCustomer logs and returns null on any other failure. -/
theorem getCustomer_other_failure_example :
    getCustomer (.error (.errorVal ⟨"network unreachable"⟩)) = (none, true) := by
  decide

end ConvexAutumnSvelte
